import Mathlib

/-!
Shallow embedding of the `annotated_types` constraint-metadata core
(`src/annotated_types/__init__.py`) and proofs about its narrowing,
expansion and builder operators.

Conventions of the embedding:
* Python exceptions are modelled by `Except PyErr`: `PyErr.valueError`
  stands for the `ValueError` raised on conflicting narrowing (the spec's
  `ConflictError`-kind condition) and `PyErr.typeError` for `TypeError`
  (both the explicit `isinstance` checks and the `TypeError` Python raises
  when `None` meets integer arithmetic or comparison, as in
  `self.max_length - 1` and `min(self.max_length, other)` with
  `max_length = None`).
* Interval bounds are generic over an arbitrary type `α`, mirroring the
  source's `SupportsGt`/`SupportsGe`/`SupportsLt`/`SupportsLe` protocols;
  the narrowing guards never look at the bound values, only at presence.
* Length bounds are Python ints, modelled by `Int`; dynamically typed
  arguments (`other: Any`) of the Length operators are modelled by `PyVal`.
* Generator-based `__iter__` methods are modelled as `List`-returning
  functions (`iter`), concatenating the conditional yields in source order.
-/

namespace AnnotatedTypes

/-- Python exception kinds raised by the operators of this module. -/
inductive PyErr where
  | typeError
  | valueError
  deriving DecidableEq, Repr

/-- The atomic constraints (`BaseMetadata` subclasses) that the composite
constraints expand into: `Gt`, `Ge`, `Lt`, `Le` over an arbitrary bound type
`α`, and the integer length bounds `MinLen`, `MaxLen`. -/
inductive BaseMetadata (α : Type) where
  | Gt (gt : α)
  | Ge (ge : α)
  | Lt (lt : α)
  | Le (le : α)
  | MinLen (min_length : Int)
  | MaxLen (max_length : Int)
  deriving DecidableEq, Repr

/-- `Interval`: four optional bounds, all defaulting to `None`
(`gt`, `ge`, `lt`, `le` keyword fields of the frozen dataclass). -/
structure Interval (α : Type) where
  gt : Option α := none
  ge : Option α := none
  lt : Option α := none
  le : Option α := none
  deriving DecidableEq, Repr

/-- `Interval.__iter__`: yield `Gt(gt)` if gt is set, then `Ge(ge)` if ge is
set, then `Lt(lt)` if lt is set, then `Le(le)` if le is set. -/
def Interval.iter {α : Type} (i : Interval α) : List (BaseMetadata α) :=
  (match i.gt with | some v => [BaseMetadata.Gt v] | none => []) ++
  (match i.ge with | some v => [BaseMetadata.Ge v] | none => []) ++
  (match i.lt with | some v => [BaseMetadata.Lt v] | none => []) ++
  (match i.le with | some v => [BaseMetadata.Le v] | none => [])

/-- The `which` literal of `Interval.__check` (`"lo"` or `"hi"`). -/
inductive Which where
  | lo
  | hi
  deriving DecidableEq, Repr

/-- `Interval.__check(other, which)`: raise `ValueError` if
`(which == "lo" and (lt is not None or le is not None)) or
 (which == "hi" and (gt is not None or ge is not None))`.
(The `other` argument only feeds the error message and is omitted here.) -/
def Interval.check {α : Type} (i : Interval α) (which : Which) : Except PyErr Unit :=
  if (which = Which.lo ∧ (i.lt.isSome ∨ i.le.isSome)) ∨
     (which = Which.hi ∧ (i.gt.isSome ∨ i.ge.isSome)) then
    Except.error PyErr.valueError
  else
    Except.ok ()

/-- `Interval.__lt__`: check `"lo"`, then return `replace(self, lt=other)`. -/
def Interval.op_lt {α : Type} (i : Interval α) (other : α) : Except PyErr (Interval α) := do
  i.check Which.lo
  Except.ok { i with lt := some other }

/-- `Interval.__le__`: check `"lo"`, then return `replace(self, le=other)`. -/
def Interval.op_le {α : Type} (i : Interval α) (other : α) : Except PyErr (Interval α) := do
  i.check Which.lo
  Except.ok { i with le := some other }

/-- `Interval.__ge__`: check `"hi"`, then return `replace(self, ge=other)`. -/
def Interval.op_ge {α : Type} (i : Interval α) (other : α) : Except PyErr (Interval α) := do
  i.check Which.hi
  Except.ok { i with ge := some other }

/-- `Interval.__gt__`: check `"hi"`, then return `replace(self, gt=other)`. -/
def Interval.op_gt {α : Type} (i : Interval α) (other : α) : Except PyErr (Interval α) := do
  i.check Which.hi
  Except.ok { i with gt := some other }

/-- `Len`: `min_length` (non-negative int, default 0) and optional
`max_length` (default `None`). The `Ge(0)` annotations of the dataclass are
documentation only and enforced nowhere, so the fields are plain `Int`. -/
structure Len where
  min_length : Int := 0
  max_length : Option Int := none
  deriving DecidableEq, Repr

/-- Dynamically typed Python values passed to the `Len` / `__LenMagic`
operators (`other: Any`): an int, a string (standing for any non-int,
non-Len value) or a `Len` instance. -/
inductive PyVal where
  | int (n : Int)
  | str (s : String)
  | lenV (l : Len)
  deriving DecidableEq, Repr

/-- `isinstance(other, int)`. -/
def PyVal.isInt : PyVal → Bool
  | PyVal.int _ => true
  | _ => false

/-- `type(other) == Len`. -/
def PyVal.isLen : PyVal → Bool
  | PyVal.lenV _ => true
  | _ => false

/-- `Len.__iter__`: yield `MinLen(min_length)` if `min_length > 0`, then
`MaxLen(max_length)` if `max_length is not None`. -/
def Len.iter (l : Len) : List (BaseMetadata Int) :=
  (if l.min_length > 0 then [BaseMetadata.MinLen l.min_length] else []) ++
  (match l.max_length with | some m => [BaseMetadata.MaxLen m] | none => [])

/-- The `which` literal of `Len.__check` (`"min"`, `"max"`; `Option` models
the `None` default). -/
inductive WhichL where
  | minSide
  | maxSide
  deriving DecidableEq, Repr

/-- `Len.__check(other, which=None)`: raise `TypeError` if `other` is not an
int; then raise `ValueError` if
`(which != "min" and min_length != 0) or (which != "max" and max_length is not None)`
— written in the source as
`(which != "max" and self.min_length != 0) or (which != "min" and self.max_length is not None)`. -/
def Len.check (l : Len) (other : PyVal) (which : Option WhichL) : Except PyErr Unit :=
  if other.isInt = false then Except.error PyErr.typeError
  else if (which ≠ some WhichL.maxSide ∧ l.min_length ≠ 0) ∨
          (which ≠ some WhichL.minSide ∧ l.max_length ≠ none) then
    Except.error PyErr.valueError
  else Except.ok ()

/-- Python's `Len.__eq__` returns either a `bool` (when compared with
another `Len`) or a fresh `Len` (when compared with an int). -/
inductive LenEqResult where
  | bool (b : Bool)
  | lenR (l : Len)
  deriving DecidableEq, Repr

/-- `Len.__eq__(other)`: if `type(self) == type(other)`, return the bool
`min_length == other.min_length and max_length == other.max_length`;
otherwise `__check(other)` and return `Len(min_length=other, max_length=other)`. -/
def Len.eq (l : Len) (other : PyVal) : Except PyErr LenEqResult :=
  match other with
  | PyVal.lenV l2 =>
      Except.ok (LenEqResult.bool
        (l.min_length == l2.min_length && l.max_length == l2.max_length))
  | _ => do
      l.check other none
      match other with
      | PyVal.int n => Except.ok (LenEqResult.lenR { min_length := n, max_length := some n })
      | _ => Except.error PyErr.typeError

/-- `Len.__lt__(other)`: `__check(other, "max")`, then
`replace(self, max_length=min(self.max_length - 1, other))`. When
`max_length` is `None`, Python's `self.max_length - 1` raises `TypeError`.
(The non-int fallthrough after a successful check is unreachable.) -/
def Len.op_lt (l : Len) (other : PyVal) : Except PyErr Len := do
  l.check other (some WhichL.maxSide)
  match l.max_length, other with
  | some m, PyVal.int n => Except.ok { l with max_length := some (min (m - 1) n) }
  | _, _ => Except.error PyErr.typeError

/-- `Len.__le__(other)`: `__check(other, "max")`, then
`replace(self, max_length=min(self.max_length, other))`. When `max_length`
is `None`, Python's `min(None, other)` raises `TypeError`. -/
def Len.op_le (l : Len) (other : PyVal) : Except PyErr Len := do
  l.check other (some WhichL.maxSide)
  match l.max_length, other with
  | some m, PyVal.int n => Except.ok { l with max_length := some (min m n) }
  | _, _ => Except.error PyErr.typeError

/-- `Len.__ge__(other)`: `__check(other, "min")`, then
`replace(self, min_length=max(self.min_length, other))`. (The non-int
fallthrough after a successful check is unreachable.) -/
def Len.op_ge (l : Len) (other : PyVal) : Except PyErr Len := do
  l.check other (some WhichL.minSide)
  match other with
  | PyVal.int n => Except.ok { l with min_length := max l.min_length n }
  | _ => Except.error PyErr.typeError

/-- `Len.__gt__(other)`: `__check(other, "min")`, then
`replace(self, min_length=max(self.min_length + 1, other))`. -/
def Len.op_gt (l : Len) (other : PyVal) : Except PyErr Len := do
  l.check other (some WhichL.minSide)
  match other with
  | PyVal.int n => Except.ok { l with min_length := max (l.min_length + 1) n }
  | _ => Except.error PyErr.typeError

/-- `__Magic.__lt__`: `Interval(lt=other)`. -/
def Magic.op_lt {α : Type} (other : α) : Interval α := { lt := some other }

/-- `__Magic.__le__`: `Interval(le=other)`. -/
def Magic.op_le {α : Type} (other : α) : Interval α := { le := some other }

/-- `__Magic.__eq__`: `Interval(le=other, ge=other)`. -/
def Magic.op_eq {α : Type} (other : α) : Interval α := { ge := some other, le := some other }

/-- `__Magic.__ge__`: `Interval(ge=other)`. -/
def Magic.op_ge {α : Type} (other : α) : Interval α := { ge := some other }

/-- `__Magic.__gt__`: `Interval(gt=other)`. -/
def Magic.op_gt {α : Type} (other : α) : Interval α := { gt := some other }

/-- `__LenMagic.__check(other)`: raise `TypeError` if `other` is not an int. -/
def LenMagic.check (other : PyVal) : Except PyErr Unit :=
  if other.isInt = false then Except.error PyErr.typeError else Except.ok ()

/-- `__LenMagic.__lt__(other)`: check, then `Len(max_length=other-1)`. -/
def LenMagic.op_lt (other : PyVal) : Except PyErr Len := do
  LenMagic.check other
  match other with
  | PyVal.int n => Except.ok { min_length := 0, max_length := some (n - 1) }
  | _ => Except.error PyErr.typeError

/-- `__LenMagic.__le__(other)`: check, then `Len(max_length=other)`. -/
def LenMagic.op_le (other : PyVal) : Except PyErr Len := do
  LenMagic.check other
  match other with
  | PyVal.int n => Except.ok { min_length := 0, max_length := some n }
  | _ => Except.error PyErr.typeError

/-- `__LenMagic.__eq__(other)`: check, then
`Len(min_length=other, max_length=other)`. (The `type(self) == type(other)`
branch compares two `__LenMagic` instances, a value `PyVal` cannot denote,
so it does not arise for the modelled argument types.) -/
def LenMagic.op_eq (other : PyVal) : Except PyErr Len := do
  LenMagic.check other
  match other with
  | PyVal.int n => Except.ok { min_length := n, max_length := some n }
  | _ => Except.error PyErr.typeError

/-- `__LenMagic.__ge__(other)`: check, then `Len(min_length=other)`. -/
def LenMagic.op_ge (other : PyVal) : Except PyErr Len := do
  LenMagic.check other
  match other with
  | PyVal.int n => Except.ok { min_length := n, max_length := none }
  | _ => Except.error PyErr.typeError

/-- `__LenMagic.__gt__(other)`: check, then `Len(min_length=other+1)`. -/
def LenMagic.op_gt (other : PyVal) : Except PyErr Len := do
  LenMagic.check other
  match other with
  | PyVal.int n => Except.ok { min_length := n + 1, max_length := none }
  | _ => Except.error PyErr.typeError

/-- The data-model invariant of `Len` stated by the spec: `min_length` is a
non-negative integer and `max_length`, when present, is a non-negative
integer. -/
def Len.invariant (l : Len) : Bool :=
  decide (0 ≤ l.min_length) &&
    (match l.max_length with
     | some m => decide (0 ≤ m)
     | none => true)

/-- A class declaration extending `GroupedMetadata`: `iterImpl` is the
`__iter__` resolved on the subclass, `none` when the subclass (and every
intermediate ancestor) left `GroupedMetadata.__iter__` in place. `σ` is the
instance state, `α` the bound type of the yielded metadata. -/
structure ClassDecl (σ : Type) (α : Type) where
  iterImpl : Option (σ → List (BaseMetadata α))

/-- `GroupedMetadata.__init_subclass__`: runs at class-definition time and
raises `TypeError` if `cls.__iter__ is GroupedMetadata.__iter__`; otherwise
the class is defined as declared. -/
def GroupedMetadata.init_subclass {σ α : Type} (d : ClassDecl σ α) :
    Except PyErr (ClassDecl σ α) :=
  match d.iterImpl with
  | none => Except.error PyErr.typeError
  | some _ => Except.ok d

/-- Claim C1, counterexample. The claim says a less-than narrowing fails
exactly when a lower bound (`gt` or `ge`) is set and a greater-or-equal
narrowing fails exactly when an upper bound (`lt` or `le`) is set. The code
does the opposite: `Interval(gt=1) < 5` succeeds (a lower bound is set, the
claim says it must fail) and `Interval(lt=3) < 5` fails (no lower bound is
set, the claim says it must succeed); symmetrically for `>=`. -/
theorem interval_guard_counterexample :
    Interval.op_lt ({ gt := some 1 } : Interval Int) 5 =
      Except.ok { gt := some 1, lt := some 5 } ∧
    Interval.op_ge ({ lt := some 3 } : Interval Int) 0 =
      Except.ok { lt := some 3, ge := some 0 } ∧
    Interval.op_lt ({ lt := some 3 } : Interval Int) 5 = Except.error PyErr.valueError ∧
    Interval.op_ge ({ gt := some 1 } : Interval Int) 0 = Except.error PyErr.valueError :=
  ⟨rfl, rfl, rfl, rfl⟩

/-- Claim C1, amended: for every `Interval` and every value `other`, the
less-than narrowing fails with the `ValueError`-kind `ConflictError` exactly
when an upper bound (`lt` or `le`) is already set, and otherwise returns a
copy with `lt = other`; less-or-equal has the same guard and sets `le`;
greater-or-equal and greater-than fail exactly when a lower bound (`gt` or
`ge`) is already set and otherwise return a copy with `ge` (resp. `gt`)
`= other`. -/
theorem interval_guard_amended (α : Type) (i : Interval α) (other : α) :
    (i.op_lt other = if i.lt.isSome || i.le.isSome then Except.error PyErr.valueError
      else Except.ok { i with lt := some other }) ∧
    (i.op_le other = if i.lt.isSome || i.le.isSome then Except.error PyErr.valueError
      else Except.ok { i with le := some other }) ∧
    (i.op_ge other = if i.gt.isSome || i.ge.isSome then Except.error PyErr.valueError
      else Except.ok { i with ge := some other }) ∧
    (i.op_gt other = if i.gt.isSome || i.ge.isSome then Except.error PyErr.valueError
      else Except.ok { i with gt := some other }) := by
  obtain ⟨g, e, l, b⟩ := i
  cases g <;> cases e <;> cases l <;> cases b <;> exact ⟨rfl, rfl, rfl, rfl⟩

/-- Claim C2 (code bug): `Len.__le__` can never return a narrowed copy.
When `max_length` is already set, `__check(other, "max")` raises
`ValueError`; when it is `None`, the guard passes but
`min(self.max_length, other)` compares `None` with an int and raises
`TypeError`. In particular the claimed `max_length = min(current_max, n)`
narrowing (and hence the claimed monotonicity) never happens. -/
theorem len_le_never_narrows :
    (∀ (l : Len) (v : PyVal), (Len.op_le l v).isOk = false) ∧
    Len.op_le { min_length := 0, max_length := none } (PyVal.int 5) =
      Except.error PyErr.typeError ∧
    Len.op_le { min_length := 0, max_length := some 10 } (PyVal.int 5) =
      Except.error PyErr.valueError := by
  refine ⟨?_, rfl, rfl⟩
  intro l v
  obtain ⟨minl, maxl⟩ := l
  cases v <;> cases maxl <;> rfl

/-- Claim C3: for every `Interval`, expansion yields exactly, in this fixed
order, `Gt(gt)` if gt is set, `Ge(ge)` if ge is set, `Lt(lt)` if lt is set,
`Le(le)` if le is set; in particular `Interval()` expands to `[]`,
`Interval(gt=1)` to `[Gt 1]` and `Interval(gt=1, le=5)` to `[Gt 1, Le 5]`. -/
theorem interval_iter_order :
    (∀ (α : Type) (i : Interval α),
      i.iter = i.gt.toList.map BaseMetadata.Gt ++ i.ge.toList.map BaseMetadata.Ge ++
               i.lt.toList.map BaseMetadata.Lt ++ i.le.toList.map BaseMetadata.Le) ∧
    Interval.iter ({} : Interval Int) = [] ∧
    Interval.iter ({ gt := some 1 } : Interval Int) = [BaseMetadata.Gt 1] ∧
    Interval.iter ({ gt := some 1, le := some 5 } : Interval Int) =
      [BaseMetadata.Gt 1, BaseMetadata.Le 5] := by
  refine ⟨?_, rfl, rfl, rfl⟩
  intro α i
  obtain ⟨g, e, l, b⟩ := i
  cases g <;> cases e <;> cases l <;> cases b <;> rfl

/-- Claim C4: chained narrowing works left to right: the numeric builder's
`> 1` gives `Interval(gt=1)`, narrowing that with `<= 5` gives
`Interval(gt=1, le=5)`, and any further lower-bound narrowing (`>=` or `>`)
of that result fails with the `ValueError`-kind `ConflictError`; likewise
builder `> 0` then `<= 100` yields an Interval expanding to exactly
`[GreaterThan(0), LessOrEqual(100)]` in that order. -/
theorem chained_narrowing :
    Magic.op_gt (1 : Int) = ({ gt := some 1 } : Interval Int) ∧
    Interval.op_le (Magic.op_gt (1 : Int)) 5 =
      Except.ok { gt := some 1, le := some 5 } ∧
    (∀ x : Int, Interval.op_ge ({ gt := some 1, le := some 5 } : Interval Int) x =
      Except.error PyErr.valueError) ∧
    (∀ x : Int, Interval.op_gt ({ gt := some 1, le := some 5 } : Interval Int) x =
      Except.error PyErr.valueError) ∧
    Interval.op_le (Magic.op_gt (0 : Int)) 100 =
      Except.ok { gt := some 0, le := some 100 } ∧
    Interval.iter ({ gt := some 0, le := some 100 } : Interval Int) =
      [BaseMetadata.Gt 0, BaseMetadata.Le 100] :=
  ⟨rfl, rfl, fun _ => rfl, fun _ => rfl, rfl, rfl⟩

/-- Claim C5: every comparison operator of the stateless numeric builder
returns a brand-new `Interval` with exactly the one corresponding bound set
(`==` sets both `ge` and `le` to the same value); the length builder is
analogous with `<`/`>` applying the ±1 adjustment (`< n` gives
`max_length = n - 1`, `> n` gives `min_length = n + 1`) and `== n` giving
`min_length = max_length = n`. -/
theorem builder_ops :
    (∀ (α : Type) (x : α),
      Magic.op_lt x = ({ lt := some x } : Interval α) ∧
      Magic.op_le x = ({ le := some x } : Interval α) ∧
      Magic.op_eq x = ({ ge := some x, le := some x } : Interval α) ∧
      Magic.op_ge x = ({ ge := some x } : Interval α) ∧
      Magic.op_gt x = ({ gt := some x } : Interval α)) ∧
    (∀ n : Int,
      LenMagic.op_lt (PyVal.int n) =
        Except.ok { min_length := 0, max_length := some (n - 1) } ∧
      LenMagic.op_le (PyVal.int n) =
        Except.ok { min_length := 0, max_length := some n } ∧
      LenMagic.op_eq (PyVal.int n) =
        Except.ok { min_length := n, max_length := some n } ∧
      LenMagic.op_ge (PyVal.int n) =
        Except.ok { min_length := n, max_length := none } ∧
      LenMagic.op_gt (PyVal.int n) =
        Except.ok { min_length := n + 1, max_length := none }) :=
  ⟨fun _ _ => ⟨rfl, rfl, rfl, rfl, rfl⟩, fun _ => ⟨rfl, rfl, rfl, rfl, rfl⟩⟩

/-- Claim C6: for every `Len`, expansion yields `MinLen(min_length)` only if
`min_length > 0` and `MaxLen(max_length)` only if `max_length` is present,
in that order; in particular `Len()` expands to `[]`, `Len(min_length=2)` to
`[MinLen 2]` and `Len(min_length=0, max_length=10)` to `[MaxLen 10]`. -/
theorem len_iter_order :
    (∀ l : Len, l.iter =
      (if 0 < l.min_length then [BaseMetadata.MinLen l.min_length] else []) ++
      l.max_length.toList.map BaseMetadata.MaxLen) ∧
    Len.iter {} = [] ∧
    Len.iter { min_length := 2 } = [BaseMetadata.MinLen 2] ∧
    Len.iter { min_length := 0, max_length := some 10 } = [BaseMetadata.MaxLen 10] := by
  refine ⟨?_, rfl, rfl, rfl⟩
  intro l
  obtain ⟨minl, maxl⟩ := l
  cases maxl <;> rfl

/-- Claim C7: `Len` equality against the bare integer `5` (on the default
`Len()`) builds `Len(min_length=5, max_length=5)`, and two `Len` values
compare equal exactly when both their bounds match. -/
theorem len_eq_exact :
    (∀ l1 l2 : Len, Len.eq l1 (PyVal.lenV l2) = Except.ok (LenEqResult.bool true) ↔
      (l1.min_length = l2.min_length ∧ l1.max_length = l2.max_length)) ∧
    Len.eq {} (PyVal.int 5) =
      Except.ok (LenEqResult.lenR { min_length := 5, max_length := some 5 }) := by
  refine ⟨?_, rfl⟩
  intro l1 l2
  simp [Len.eq]

/-- Claim C8, counterexample: the length builder's `< 0` produces
`Len(max_length = -1)`, which violates the data-model invariant that
`max_length`, when present, is non-negative. -/
theorem lenMagic_invariant_counterexample :
    LenMagic.op_lt (PyVal.int 0) =
      Except.ok { min_length := 0, max_length := some (-1) } ∧
    Len.invariant { min_length := 0, max_length := some (-1) } = false :=
  ⟨rfl, rfl⟩

/-- Claim C8, amended: a `Len` produced by a length-builder comparison
satisfies the data-model invariant provided the integer argument is large
enough for that operator: `n ≥ 1` for `< n` (which stores `n - 1`), `n ≥ 0`
for `<= n`, `== n` and `>= n`, and `n ≥ -1` for `> n` (which stores
`n + 1`). -/
theorem lenMagic_invariant_amended (n : Int) :
    (1 ≤ n →
      LenMagic.op_lt (PyVal.int n) =
        Except.ok { min_length := 0, max_length := some (n - 1) } ∧
      Len.invariant { min_length := 0, max_length := some (n - 1) } = true) ∧
    (0 ≤ n →
      (LenMagic.op_le (PyVal.int n) =
          Except.ok { min_length := 0, max_length := some n } ∧
        Len.invariant { min_length := 0, max_length := some n } = true) ∧
      (LenMagic.op_eq (PyVal.int n) =
          Except.ok { min_length := n, max_length := some n } ∧
        Len.invariant { min_length := n, max_length := some n } = true) ∧
      (LenMagic.op_ge (PyVal.int n) =
          Except.ok { min_length := n, max_length := none } ∧
        Len.invariant { min_length := n, max_length := none } = true)) ∧
    (-1 ≤ n →
      LenMagic.op_gt (PyVal.int n) =
        Except.ok { min_length := n + 1, max_length := none } ∧
      Len.invariant { min_length := n + 1, max_length := none } = true) := by
  refine ⟨fun h => ⟨rfl, ?_⟩, fun h => ⟨⟨rfl, ?_⟩, ⟨rfl, ?_⟩, ⟨rfl, ?_⟩⟩, fun h => ⟨rfl, ?_⟩⟩ <;>
    simp [Len.invariant] <;> omega

/-- Witness for `lenMagic_invariant_amended` at `n = 1`, discharging all
three hypotheses and covering all five builder operators. -/
theorem lenMagic_invariant_amended_witness :
    ((1 : Int) ≤ 1 ∧ (0 : Int) ≤ 1 ∧ (-1 : Int) ≤ 1) ∧
    (LenMagic.op_lt (PyVal.int 1) =
        Except.ok { min_length := 0, max_length := some ((1 : Int) - 1) } ∧
      Len.invariant { min_length := 0, max_length := some ((1 : Int) - 1) } = true) ∧
    ((LenMagic.op_le (PyVal.int 1) =
          Except.ok { min_length := 0, max_length := some (1 : Int) } ∧
        Len.invariant { min_length := 0, max_length := some (1 : Int) } = true) ∧
      (LenMagic.op_eq (PyVal.int 1) =
          Except.ok { min_length := 1, max_length := some (1 : Int) } ∧
        Len.invariant { min_length := (1 : Int), max_length := some (1 : Int) } = true) ∧
      (LenMagic.op_ge (PyVal.int 1) =
          Except.ok { min_length := (1 : Int), max_length := none } ∧
        Len.invariant { min_length := (1 : Int), max_length := none } = true)) ∧
    (LenMagic.op_gt (PyVal.int 1) =
        Except.ok { min_length := (1 : Int) + 1, max_length := none } ∧
      Len.invariant { min_length := (1 : Int) + 1, max_length := none } = true) :=
  ⟨by decide,
   (lenMagic_invariant_amended 1).1 (by decide),
   (lenMagic_invariant_amended 1).2.1 (by decide),
   (lenMagic_invariant_amended 1).2.2 (by decide)⟩

/-- Claim C9: each of `Len`'s four narrowing operators raises a
`TypeError`-kind error on every non-integer argument, and its equality
check does so on every non-`Len`, non-integer argument. -/
theorem len_nonint_typeerror (l : Len) (v : PyVal) (h : v.isInt = false) :
    Len.op_lt l v = Except.error PyErr.typeError ∧
    Len.op_le l v = Except.error PyErr.typeError ∧
    Len.op_ge l v = Except.error PyErr.typeError ∧
    Len.op_gt l v = Except.error PyErr.typeError ∧
    (v.isLen = false → Len.eq l v = Except.error PyErr.typeError) := by
  cases v with
  | int n => simp [PyVal.isInt] at h
  | str s => exact ⟨rfl, rfl, rfl, rfl, fun _ => rfl⟩
  | lenV l2 =>
      refine ⟨rfl, rfl, rfl, rfl, fun h2 => ?_⟩
      simp [PyVal.isLen] at h2

/-- Witness for `len_nonint_typeerror` on a string argument. -/
theorem len_nonint_typeerror_witness :
    PyVal.isInt (PyVal.str ("a")) = false ∧
    PyVal.isLen (PyVal.str ("a")) = false ∧
    Len.op_lt {} (PyVal.str ("a")) = Except.error PyErr.typeError ∧
    Len.eq {} (PyVal.str ("a")) = Except.error PyErr.typeError :=
  ⟨rfl, rfl, (len_nonint_typeerror {} (PyVal.str ("a")) rfl).1,
   (len_nonint_typeerror {} (PyVal.str ("a")) rfl).2.2.2.2 rfl⟩

/-- Claim C10: a class declared under `GroupedMetadata` without its own
`__iter__` is rejected by `__init_subclass__`, which runs at
class-definition time (so the failure happens before any instance is
created or used); a subclass that does supply an `__iter__` is accepted as
declared. -/
theorem grouped_metadata_def_time (σ α : Type) (d : ClassDecl σ α) :
    (d.iterImpl = none →
      GroupedMetadata.init_subclass d = Except.error PyErr.typeError) ∧
    (∀ f, d.iterImpl = some f → GroupedMetadata.init_subclass d = Except.ok d) := by
  obtain ⟨impl⟩ := d
  cases impl with
  | none =>
      refine ⟨fun _ => rfl, fun f hf => ?_⟩
      simp at hf
  | some f0 =>
      refine ⟨fun h => ?_, fun f hf => rfl⟩
      simp at h

/-- Witness for `grouped_metadata_def_time`: a declaration without an
`__iter__` is rejected, one with an `__iter__` is accepted. -/
theorem grouped_metadata_def_time_witness :
    (ClassDecl.mk (none : Option (Unit → List (BaseMetadata Int)))).iterImpl = none ∧
    GroupedMetadata.init_subclass
        (ClassDecl.mk (none : Option (Unit → List (BaseMetadata Int)))) =
      Except.error PyErr.typeError ∧
    GroupedMetadata.init_subclass
        (ClassDecl.mk (some (fun (_ : Unit) => ([] : List (BaseMetadata Int))))) =
      Except.ok (ClassDecl.mk (some (fun (_ : Unit) => ([] : List (BaseMetadata Int))))) :=
  ⟨rfl,
   (grouped_metadata_def_time Unit Int (ClassDecl.mk none)).1 rfl,
   (grouped_metadata_def_time Unit Int
     (ClassDecl.mk (some (fun (_ : Unit) => ([] : List (BaseMetadata Int)))))).2 _ rfl⟩

end AnnotatedTypes
